import Mathlib

/-!
# Verification of the events handler (`src/events/handler.py`)

This file is a shallow embedding of the Lambda handler module
`src/events/handler.py`, which exposes two operations:

* `ingest_event`  — HTTP `POST /events`: parse the JSON body, validate it
  against the pydantic `EventPayload` model, conditionally insert the item
  into a DynamoDB table keyed by `(PK, SK) = ("DEVICE#"+device_id, "TS#"+ts)`,
  and publish an SQS message on a fresh insert;
* `get_device_events` — HTTP `GET /devices/{device_id}/events`: query the
  table partition with optional `from_ts` / `to_ts` / `limit` parameters,
  newest first (`ScanIndexForward=False`).

External collaborators (the `json` module, pydantic's lax type coercions,
DynamoDB, SQS, `time()`, the Lambda context) are modelled at their interface:

* the request body is represented by the outcome of `json.loads` on it
  (`BodyVal`), since the JSON parser is library code;
* numeric values arriving as native JSON numbers are modelled (`JVal.int`,
  `JVal.num`); pydantic's lax coercion of *numeric strings* to numbers and
  Python's underscore digit grouping in `int()` are not exercised here;
* DynamoDB is a list of items; a conditional `put_item` fails iff an item
  with the same `(PK, SK)` already exists, and a `query` filters the
  partition, sorts by the string sort key `SK` in descending byte order
  (DynamoDB compares keys of string type lexicographically by UTF-8 bytes;
  our inputs are ASCII, where code-point order coincides), and truncates at
  `Limit` (DynamoDB rejects a non-positive `Limit` with a `ClientError`);
* I/O faults of the store and the queue are injected through environment
  flags (`storeFault`, `publishFault`, `queryFault`);
* uncaught Python exceptions (a `ValueError` or `TypeError` that no
  `except` clause of the handler matches) are the `Except.error` side of the
  handler's result.
-/

/-- A JSON-like Python value, as produced by `json.loads`: `null`, booleans,
integers, non-integral numbers, strings, arrays and objects (insertion-ordered
association lists, as Python dicts are). -/
inductive JVal where
  | null
  | bool (b : Bool)
  | int (n : Int)
  | num (q : Rat)
  | str (s : String)
  | arr (xs : List JVal)
  | obj (fields : List (String × JVal))
deriving Repr

/-- Look a key up in a Python dict (first binding wins, as keys are unique). -/
def getKey (fields : List (String × JVal)) (k : String) : Option JVal :=
  match fields.find? (fun kv => kv.1 == k) with
  | some kv => some kv.2
  | none => none

/-- Python dict assignment `d[k] = v`: replace the value in place if the key
is present, append the binding otherwise. -/
def setKey (fields : List (String × JVal)) (k : String) (v : JVal) :
    List (String × JVal) :=
  match fields with
  | [] => [(k, v)]
  | (k', v') :: rest =>
      if k' == k then (k', v) :: rest else (k', v') :: setKey rest k v

/-- Leading-whitespace removal on a character list. -/
def dropLeadingWs : List Char → List Char
  | [] => []
  | c :: cs => if c.isWhitespace then dropLeadingWs cs else c :: cs

/-- Python `str.strip()`: remove leading and trailing whitespace. -/
def pyStrip (s : String) : String :=
  ⟨(dropLeadingWs (dropLeadingWs s.data).reverse).reverse⟩

/-- One entry of pydantic's `e.errors()`: the field location and message. -/
structure FieldError where
  loc : String
  msg : String
deriving Repr, DecidableEq

/-- The validated `EventPayload` pydantic model of `handler.py`:
`device_id : str`, `type : str`, `value : float`, `ts : int`,
`raw : dict | None`. -/
structure EventPayload where
  device_id : String
  type : String
  value : Rat
  ts : Int
  raw : Option (List (String × JVal))
deriving Repr

/-- Field `device_id : str = Field(..., min_length=1, max_length=128)` plus
the `not_empty` validator, which rejects a value that is empty after
stripping whitespace. Missing field and wrong type are pydantic's built-in
errors; the length constraints run before the custom validator. -/
def parseDeviceId (fields : List (String × JVal)) : Except FieldError String :=
  match getKey fields "device_id" with
  | none => .error ⟨"device_id", "Field required"⟩
  | some (.str s) =>
      if s.length < 1 || s.length > 128 then
        .error ⟨"device_id", "String length out of range"⟩
      else if pyStrip s == "" then
        .error ⟨"device_id", "device_id cannot be empty"⟩
      else .ok s
  | some _ => .error ⟨"device_id", "Input should be a valid string"⟩

/-- Field `type : str = Field(..., min_length=1, max_length=64)` with the same
`not_empty` validator (whose message mentions `device_id` for both fields,
as in the source). -/
def parseType (fields : List (String × JVal)) : Except FieldError String :=
  match getKey fields "type" with
  | none => .error ⟨"type", "Field required"⟩
  | some (.str s) =>
      if s.length < 1 || s.length > 64 then
        .error ⟨"type", "String length out of range"⟩
      else if pyStrip s == "" then
        .error ⟨"type", "device_id cannot be empty"⟩
      else .ok s
  | some _ => .error ⟨"type", "Input should be a valid string"⟩

/-- Field `value : float`: accepts any JSON number (an int coerces to float
in pydantic's lax mode). -/
def parseValue (fields : List (String × JVal)) : Except FieldError Rat :=
  match getKey fields "value" with
  | none => .error ⟨"value", "Field required"⟩
  | some (.int n) => .ok (n : Rat)
  | some (.num q) => .ok q
  | some _ => .error ⟨"value", "Input should be a valid number"⟩

/-- Field `ts : int` plus the `ts_must_be_positive` validator (`v <= 0` is
rejected). A non-integral JSON number is a type error; an integral float
coerces in lax mode. -/
def parseTs (fields : List (String × JVal)) : Except FieldError Int :=
  match getKey fields "ts" with
  | none => .error ⟨"ts", "Field required"⟩
  | some (.int n) =>
      if n ≤ 0 then .error ⟨"ts", "ts must be a positive epoch millisecond value"⟩
      else .ok n
  | some (.num q) =>
      if q.den == 1 then
        if q.num ≤ 0 then .error ⟨"ts", "ts must be a positive epoch millisecond value"⟩
        else .ok q.num
      else .error ⟨"ts", "Input should be a valid integer"⟩
  | some _ => .error ⟨"ts", "Input should be a valid integer"⟩

/-- Field `raw : dict | None = None`: absent or `null` gives `None`, a JSON
object passes through, anything else is a type error. -/
def parseRaw (fields : List (String × JVal)) :
    Except FieldError (Option (List (String × JVal))) :=
  match getKey fields "raw" with
  | none => .ok none
  | some .null => .ok none
  | some (.obj l) => .ok (some l)
  | some _ => .error ⟨"raw", "Input should be a valid dictionary"⟩

/-- The error entries contributed by one field's outcome. -/
def collectErr {α : Type} : Except FieldError α → List FieldError
  | .error e => [e]
  | .ok _ => []

/-- Model of `EventPayload(**data)`: pydantic validates every field independently and
aggregates all field errors into one `ValidationError` (`e.errors()` lists
them in field-declaration order). -/
def validateEventPayload (fields : List (String × JVal)) :
    Except (List FieldError) EventPayload :=
  match parseDeviceId fields, parseType fields, parseValue fields,
        parseTs fields, parseRaw fields with
  | .ok d, .ok t, .ok v, .ok ts, .ok rw => .ok ⟨d, t, v, ts, rw⟩
  | d, t, v, ts, rw =>
      .error (collectErr d ++ collectErr t ++ collectErr v ++
              collectErr ts ++ collectErr rw)

/-- The value of `event.get("body")` together with the outcome of `json.loads` on it, the
JSON parser being external library code: the key may be missing (or `None`),
present but not a `str`, a `str` that fails to parse, or a `str` parsing to a
`JVal`. -/
inductive BodyVal where
  | missing
  | notString
  | badJson (msg : String)
  | json (v : JVal)
deriving Repr

/-- A Python exception that no `except` clause of the handler catches and
that therefore escapes it. -/
inductive PyErr where
  | valueError (msg : String)
  | typeError (msg : String)
deriving Repr, DecidableEq

/-- The ways `_parse_body` (and the `EventPayload(**data)` call inside it)
can fail. `json.JSONDecodeError` and pydantic's `ValidationError` are caught
by `ingest_event`; the plain `ValueError` raised for a missing or non-string
body and the `TypeError` raised by `**data` on a non-dict are not. -/
inductive ParseErr where
  | uncaught (e : PyErr)
  | jsonDecodeError (msg : String)
  | validationError (es : List FieldError)
deriving Repr, DecidableEq

/-- Model of `_parse_body`: require a string body, `json.loads` it, and build the
`EventPayload`. -/
def parseBody : BodyVal → Except ParseErr EventPayload
  | .missing => .error (.uncaught (.valueError "Message Body is required"))
  | .notString => .error (.uncaught (.valueError "Message Body is required"))
  | .badJson m => .error (.jsonDecodeError m)
  | .json (.obj fields) =>
      match validateEventPayload fields with
      | .ok p => .ok p
      | .error es => .error (.validationError es)
  | .json _ =>
      .error (.uncaught (.typeError "argument after ** must be a mapping"))

/-- A stored DynamoDB item, with the attributes `ingest_event` writes.
`value` and `ingested_at` are `Decimal`s (exact decimal fractions), `ts` a
number, `raw` present only when set. -/
structure Item where
  PK : String
  SK : String
  device_id : String
  type : String
  value : Rat
  ts : Int
  ingested_at : Rat
  request_id : String
  raw : Option (List (String × JVal))
deriving Repr

/-- The DynamoDB table: the list of stored items (each `(PK, SK)` pair is
held by at most one item; a conditional put enforces this). -/
abbrev Store := List Item

/-- Does the table hold an item with this primary key? -/
def keyExists (store : Store) (pk sk : String) : Bool :=
  store.any (fun r => r.PK == pk && r.SK == sk)

/-- How many items carry this primary key. -/
def countKey (store : Store) (pk sk : String) : Nat :=
  (store.filter (fun r => r.PK == pk && r.SK == sk)).length

/-- Outcome of the conditional `put_item` call. -/
inductive PutOutcome where
  | accepted
  | condCheckFailed
  | clientError
deriving Repr, DecidableEq

/-- Model of `_table.put_item(Item=item,
ConditionExpression="attribute_not_exists(SK)")`:
with the condition evaluated on the item stored under the request's primary
key, the write succeeds exactly when no item with that `(PK, SK)` exists;
an existing item raises `ConditionalCheckFailedException`. A `fault` injects
any other `ClientError`. -/
def put_item (fault : Bool) (store : Store) (item : Item) :
    PutOutcome × Store :=
  if fault then (.clientError, store)
  else if keyExists store item.PK item.SK then (.condCheckFailed, store)
  else (.accepted, store ++ [item])

/-- The SQS message body `ingest_event` publishes for an accepted event. -/
structure SqsMsg where
  device_id : String
  type : String
  value : Rat
  ts : Int
  request_id : String
  event_id : String
deriving Repr, DecidableEq

/-- A structured handler response: status code, the `X-Request-Id` header
value, and the (to-be-serialized) JSON body. -/
structure Response where
  statusCode : Nat
  xRequestId : String
  body : List (String × JVal)
deriving Repr

/-- Truthiness of the optional `request_id` argument (`if request_id:`). -/
def optStrTruthy : Option String → Bool
  | none => false
  | some s => !(s == "")

/-- Model of `_response(status, body, request_id=None)`: wrap a non-dict body as
`{"message": body}`, set `payload["request_id"]` when `request_id` is truthy,
and emit the status, header and body. -/
def handlerResponse (status : Nat) (body : JVal) (request_id : Option String) :
    Response :=
  let payload := match body with
    | .obj l => l
    | b => [("message", b)]
  let payload :=
    if optStrTruthy request_id then
      setKey payload "request_id" (.str (request_id.getD ""))
    else payload
  { statusCode := status
    xRequestId := request_id.getD ""
    body := payload }

/-- The environment of one `ingest_event` invocation: the request id (from
the Lambda context or `uuid4()`), the value of `time() * 1000`, and the
injected I/O faults of DynamoDB and SQS with the SQS error text. -/
structure IngestEnv where
  request_id : String
  nowMs : Rat
  storeFault : Bool
  publishFault : Bool
  publishErrMsg : String
deriving Repr, DecidableEq

/-- The observable result of one `ingest_event` invocation: the table after
the call, the response (or the uncaught exception), the message bodies passed
to `send_message` (the publish attempts), and the outcome of the conditional
put when it was reached. -/
structure IngestResult where
  store : Store
  outcome : Except PyErr Response
  attempted : List SqsMsg
  putOutcome : Option PutOutcome
deriving Repr

/-- The item `ingest_event` builds for a validated payload: `PK`, `SK`, the
event fields, `ingested_at` and `request_id`; `raw` only when `payload.raw`
is truthy (a non-empty dict). -/
def itemOf (p : EventPayload) (env : IngestEnv) : Item :=
  { PK := "DEVICE#" ++ p.device_id
    SK := "TS#" ++ toString p.ts
    device_id := p.device_id
    type := p.type
    value := p.value
    ts := p.ts
    ingested_at := env.nowMs
    request_id := env.request_id
    raw := match p.raw with
           | some l => if l.isEmpty then none else some l
           | none => none }

/-- The SQS message for a validated payload. -/
def sqsMsgOf (p : EventPayload) (env : IngestEnv) : SqsMsg :=
  { device_id := p.device_id
    type := p.type
    value := p.value
    ts := p.ts
    request_id := env.request_id
    event_id := ("DEVICE#" ++ p.device_id) ++ ":" ++ ("TS#" ++ toString p.ts) }

/-- The store-then-publish tail of `ingest_event`, entered once validation
succeeded: conditional put, then `send_message` only on `Accepted`, mapping
outcomes to the 201 / 409 / 500 responses of the source. -/
def ingestAfterParse (p : EventPayload) (env : IngestEnv) (store : Store) :
    IngestResult :=
  let item := itemOf p env
  match put_item env.storeFault store item with
  | (.clientError, s') =>
      { store := s'
        outcome := .ok (handlerResponse 500
          (.obj [("error", .str "Failed to store event")]) (some env.request_id))
        attempted := []
        putOutcome := some .clientError }
  | (.condCheckFailed, s') =>
      { store := s'
        outcome := .ok (handlerResponse 409
          (.obj [("message", .str "Duplicate event — already stored"),
                 ("request_id", .str env.request_id)]) none)
        attempted := []
        putOutcome := some .condCheckFailed }
  | (.accepted, s') =>
      let msg := sqsMsgOf p env
      if env.publishFault then
        { store := s'
          outcome := .ok (handlerResponse 500
            (.obj [("message", .str "SQS Enqueue failed,"),
                   ("error", .str env.publishErrMsg)]) none)
          attempted := [msg]
          putOutcome := some .accepted }
      else
        { store := s'
          outcome := .ok (handlerResponse 201
            (.obj [("message", .str "Event ingested"),
                   ("device_id", .str p.device_id),
                   ("ts", .int p.ts),
                   ("request_id", .str env.request_id)]) none)
          attempted := [msg]
          putOutcome := some .accepted }

/-- Model of `ingest_event(event, context)`: parse and validate the body, convert the
caught `JSONDecodeError` / `ValidationError` to 400 responses, let the
uncaught exceptions escape, and otherwise run the store-then-publish tail. -/
def ingest_event (body : BodyVal) (env : IngestEnv) (store : Store) :
    IngestResult :=
  match parseBody body with
  | .error (.uncaught e) =>
      { store := store, outcome := .error e, attempted := [], putOutcome := none }
  | .error (.jsonDecodeError m) =>
      { store := store
        outcome := .ok (handlerResponse 400
          (.obj [("error", .str "Invalid JSON body"), ("detail", .str m)])
          (some env.request_id))
        attempted := []
        putOutcome := none }
  | .error (.validationError es) =>
      { store := store
        outcome := .ok (handlerResponse 400
          (.obj [("error", .str "Validation failed"),
                 ("detail", .arr (es.map (fun e =>
                    .obj [("loc", .arr [.str e.loc]), ("msg", .str e.msg)])))])
          (some env.request_id))
        attempted := []
        putOutcome := none }
  | .ok p => ingestAfterParse p env store

/-- The status code of a handler result, when no exception escaped. -/
def statusOf (r : Except PyErr Response) : Option Nat :=
  match r with
  | .ok resp => some resp.statusCode
  | .error _ => none

/-- Look a key up in a response body, when no exception escaped. -/
def bodyGet (r : Except PyErr Response) (k : String) : Option JVal :=
  match r with
  | .ok resp => getKey resp.body k
  | .error _ => none

/-- Python `int()` on a string: strip surrounding whitespace, allow one
optional sign, then require at least one decimal digit; anything else raises
`ValueError` (`none`). -/
def parseDigitsAux : List Char → Nat → Option Nat
  | [], acc => some acc
  | c :: cs, acc =>
      if c.isDigit then parseDigitsAux cs (acc * 10 + (c.toNat - 48))
      else none

/-- All-digit parse of a nonempty character list. -/
def parseDigits : List Char → Option Nat
  | [] => none
  | cs => parseDigitsAux cs 0

/-- Python `int(s)` for a `str` argument. -/
def pyInt (s : String) : Option Int :=
  match (pyStrip s).data with
  | '+' :: cs => (parseDigits cs).map Int.ofNat
  | '-' :: cs => (parseDigits cs).map (fun n => -(n : Int))
  | cs => (parseDigits cs).map Int.ofNat

/-- Lexicographic strict order on character lists by code point (DynamoDB
compares string keys by UTF-8 bytes; on ASCII the two agree). -/
def charListLt : List Char → List Char → Bool
  | _, [] => false
  | [], _ :: _ => true
  | a :: as, b :: bs => a.toNat < b.toNat || (a == b && charListLt as bs)

/-- Strict string order used by the DynamoDB sort key. -/
def strLt (a b : String) : Bool := charListLt a.data b.data

/-- Non-strict string order used by the DynamoDB sort key. -/
def strLe (a b : String) : Bool := a == b || strLt a b

/-- Insert an item into a list kept in descending `SK` order. -/
def insertDescBySK (x : Item) : List Item → List Item
  | [] => [x]
  | y :: ys => if strLe y.SK x.SK then x :: y :: ys else y :: insertDescBySK x ys

/-- Sort items by descending `SK` (how a DynamoDB partition is read with
`ScanIndexForward=False`). -/
def sortDescBySK : List Item → List Item
  | [] => []
  | x :: xs => insertDescBySK x (sortDescBySK xs)

/-- The sort-key condition of the query's `KeyConditionExpression`, beyond
the equality on `PK`: nothing, `between`, `gte` or `lte` on the string `SK`. -/
inductive SKCond where
  | noCond
  | between (lo hi : String)
  | gte (lo : String)
  | lte (hi : String)
deriving Repr, DecidableEq

/-- Whether a sort key satisfies the condition (DynamoDB `BETWEEN` is
inclusive on both ends, comparing strings). -/
def skMatches : SKCond → String → Bool
  | .noCond, _ => true
  | .between lo hi, s => strLe lo s && strLe s hi
  | .gte lo, s => strLe lo s
  | .lte hi, s => strLe s hi

/-- Model of `_table.query(KeyConditionExpression=..., Limit=limit,
ScanIndexForward=False)`: take the partition `PK = pk`, keep the sort keys
matching the condition, read them newest-first (descending string `SK`),
truncate at `Limit`, and report a `LastEvaluatedKey` when results remain
beyond the page. A non-positive `Limit` is rejected by the service
(`ValidationException`, a `ClientError`), and `fault` injects any other
`ClientError`. -/
def tableQuery (fault : Bool) (store : Store) (pk : String) (c : SKCond)
    (limit : Int) : Except Unit (List Item × Option (String × String)) :=
  if fault || limit ≤ 0 then .error ()
  else
    let all := sortDescBySK (store.filter (fun r => r.PK == pk && skMatches c r.SK))
    let page := all.take limit.toNat
    let lek :=
      if limit.toNat < all.length then
        match page.getLast? with
        | some i => some (i.PK, i.SK)
        | none => none
      else none
    .ok (page, lek)

/-- The request of `get_device_events`: the `device_id` path parameter and
the raw query-string parameters (absent or string-valued). -/
structure GetRequest where
  device_id : Option String
  from_ts : Option String
  to_ts : Option String
  limit : Option String
deriving Repr, DecidableEq

/-- The environment of one `get_device_events` invocation. -/
structure GetEnv where
  request_id : String
  queryFault : Bool
deriving Repr, DecidableEq

/-- The observable result of one `get_device_events` invocation: the
response (or uncaught exception) and, when the store query was issued, the
partition key, sort-key condition and limit it used. -/
structure GetResult where
  outcome : Except PyErr Response
  usedQuery : Option (String × SKCond × Int)
  returnedItems : List Item
deriving Repr

/-- The response row for one stored item: the raw DynamoDB attributes with
`value` converted by `float(...)`, `ts` by `int(...)` and `ingested_at` by
`int(...)` (Python `int()` of a `Decimal` truncates toward zero), in the
dict-insertion order of the source. -/
def itemToJVal (i : Item) : JVal :=
  .obj ([("PK", .str i.PK), ("SK", .str i.SK),
         ("device_id", .str i.device_id), ("type", .str i.type),
         ("value", .num i.value), ("ts", .int i.ts),
         ("ingested_at", .int (if 0 ≤ i.ingested_at then ⌊i.ingested_at⌋ else ⌈i.ingested_at⌉)),
         ("request_id", .str i.request_id)] ++
        (match i.raw with
         | some l => [("raw", .obj l)]
         | none => []))

/-- The `last_evaluated_key` response field (`None` serializes to JSON
`null`). -/
def lekToJVal : Option (String × String) → JVal
  | some (p, s) => .obj [("PK", .str p), ("SK", .str s)]
  | none => .null

/-- Model of `get_device_events(event, context)`: require a non-blank (stripped)
`device_id` path parameter, read `from_ts` / `to_ts` / `limit` from the query
string (`limit` through `int(...)`, outside any `try`: an unparseable value
raises an uncaught `ValueError`), build the key condition from the truthy
bounds, query the table, and shape the 200 / 400 / 500 responses of the
source. -/
def get_device_events (req : GetRequest) (env : GetEnv) (store : Store) :
    GetResult :=
  let rid := env.request_id
  let dev := pyStrip (req.device_id.getD "")
  if dev == "" then
    { outcome := .ok (handlerResponse 400
        (.obj [("error", .str "device_id path parameter is required")]) (some rid))
      usedQuery := none
      returnedItems := [] }
  else
    match (match req.limit with
           | none => some (100 : Int)
           | some s => pyInt s) with
    | none =>
        { outcome := .error (.valueError "invalid literal for int() with base 10")
          usedQuery := none
          returnedItems := [] }
    | some limit =>
        let pk := "DEVICE#" ++ dev
        let cond :=
          if optStrTruthy req.from_ts && optStrTruthy req.to_ts then
            SKCond.between ("TS#" ++ req.from_ts.getD "") ("TS#" ++ req.to_ts.getD "")
          else if optStrTruthy req.from_ts then
            SKCond.gte ("TS#" ++ req.from_ts.getD "")
          else if optStrTruthy req.to_ts then
            SKCond.lte ("TS#" ++ req.to_ts.getD "")
          else SKCond.noCond
        match tableQuery env.queryFault store pk cond limit with
        | .error _ =>
            { outcome := .ok (handlerResponse 500
                (.obj [("error", .str "Failed to retrieve events")]) (some rid))
              usedQuery := some (pk, cond, limit)
              returnedItems := [] }
        | .ok (items, lek) =>
            { outcome := .ok (handlerResponse 200
                (.obj [("device_id", .str dev),
                       ("count", .int items.length),
                       ("events", .arr (items.map itemToJVal)),
                       ("last_evaluated_key", lekToJVal lek)]) (some rid))
              usedQuery := some (pk, cond, limit)
              returnedItems := items }

/-- The `ts` attributes of the rows in a 200 response's `events` array. -/
def eventsTsList (r : Except PyErr Response) : List Int :=
  match bodyGet r "events" with
  | some (.arr xs) =>
      xs.filterMap (fun v =>
        match v with
        | .obj l =>
            match getKey l "ts" with
            | some (.int n) => some n
            | _ => none
        | _ => none)
  | _ => []

/-- The `device_id` attributes of the rows in a 200 response's `events`
array. -/
def eventsDeviceIds (r : Except PyErr Response) : List String :=
  match bodyGet r "events" with
  | some (.arr xs) =>
      xs.filterMap (fun v =>
        match v with
        | .obj l =>
            match getKey l "device_id" with
            | some (.str s) => some s
            | _ => none
        | _ => none)
  | _ => []

/-- Strict descending order on an integer list. -/
def strictlyDescending : List Int → Bool
  | [] => true
  | [_] => true
  | a :: b :: rest => decide (b < a) && strictlyDescending (b :: rest)

/-! ## Concrete inputs used by witnesses and counterexamples -/

/-- A well-formed ingest body: device `d1`, type `temp`, value 21, ts 9. -/
def bodyW9 : BodyVal :=
  .json (.obj [("device_id", .str "d1"), ("type", .str "temp"),
               ("value", .int 21), ("ts", .int 9)])

/-- The payload `bodyW9` validates to. -/
def payloadW9 : EventPayload := ⟨"d1", "temp", ((21 : Int) : Rat), 9, none⟩

/-- A well-formed ingest body: device `d1`, ts 100. -/
def bodyW100 : BodyVal :=
  .json (.obj [("device_id", .str "d1"), ("type", .str "temp"),
               ("value", .int 3), ("ts", .int 100)])

/-- A fault-free ingest environment. -/
def envW1 : IngestEnv := ⟨"req-1", 1000, false, false, "sqs down"⟩

/-- A second fault-free ingest environment (fresh request id and clock). -/
def envW2 : IngestEnv := ⟨"req-2", 2000, false, false, "sqs down"⟩

/-- A fault-free query environment. -/
def qenvW : GetEnv := ⟨"req-q", false⟩

/-- The fault-free-store, failing-queue ingest environment. -/
def envWPubFail : IngestEnv := ⟨"req-7", 1000, false, true, "sqs down"⟩

/-- The malformed ingest input of §8 of the spec: no `device_id`, `ts = -1`. -/
def fieldsW8 : List (String × JVal) :=
  [("type", .str "temp"), ("value", .int 1), ("ts", .int (-1))]

/-- An ingest body whose `raw` field is present but the empty object. -/
def bodyWEmptyRaw : BodyVal :=
  .json (.obj [("device_id", .str "d1"), ("type", .str "temp"),
               ("value", .int 1), ("ts", .int 5), ("raw", .obj [])])

/-- A body carrying a non-empty `raw` object. -/
def fieldsWRaw : List (String × JVal) :=
  [("device_id", .str "d1"), ("type", .str "temp"),
   ("value", .int 1), ("ts", .int 5), ("raw", .obj [("k", .int 1)])]

/-- The payload `fieldsWRaw` validates to. -/
def payloadWRaw : EventPayload :=
  ⟨"d1", "temp", ((1 : Int) : Rat), 5, some [("k", .int 1)]⟩

/-- Stores whose items all carry the `"DEVICE#" + device_id` partition key —
the shape every item written by `ingest_event` has. -/
def WFStore (store : Store) : Prop :=
  ∀ i ∈ store, i.PK = "DEVICE#" ++ i.device_id

/-- The store produced by ingesting `(d1, ts=9)` into the empty table. -/
def storeW10 : Store := (ingest_event bodyW9 envW1 []).store

/-- The single item of `storeW10`. -/
def itemW10 : Item := itemOf payloadW9 envW1

/-! ## Helper lemmas -/

theorem countKey_eq_zero_of_not_keyExists (store : Store) (pk sk : String)
    (h : keyExists store pk sk = false) : countKey store pk sk = 0 := by
  unfold countKey
  rw [List.length_eq_zero, List.filter_eq_nil_iff]
  intro a ha
  unfold keyExists at h
  rw [List.any_eq_false] at h
  exact h a ha

theorem keyExists_append (s t : Store) (pk sk : String) :
    keyExists (s ++ t) pk sk = (keyExists s pk sk || keyExists t pk sk) := by
  unfold keyExists
  exact List.any_append

theorem countKey_append (s t : Store) (pk sk : String) :
    countKey (s ++ t) pk sk = countKey s pk sk + countKey t pk sk := by
  unfold countKey
  rw [List.filter_append, List.length_append]

/-- Membership through the descending insertion. -/
theorem mem_insertDescBySK {x a : Item} {l : List Item}
    (h : x ∈ insertDescBySK a l) : x = a ∨ x ∈ l := by
  induction l with
  | nil =>
      simp only [insertDescBySK] at h
      exact Or.inl (List.mem_singleton.mp h)
  | cons y ys ih =>
      simp only [insertDescBySK] at h
      split at h
      · rcases List.mem_cons.mp h with h | h
        · exact Or.inl h
        · exact Or.inr h
      · rcases List.mem_cons.mp h with h | h
        · exact Or.inr (List.mem_cons.mpr (Or.inl h))
        · rcases ih h with h | h
          · exact Or.inl h
          · exact Or.inr (List.mem_cons.mpr (Or.inr h))

/-- Membership through the descending sort. -/
theorem mem_sortDescBySK {x : Item} {l : List Item}
    (h : x ∈ sortDescBySK l) : x ∈ l := by
  induction l with
  | nil => simp only [sortDescBySK] at h; exact absurd h (List.not_mem_nil x)
  | cons y ys ih =>
      simp only [sortDescBySK] at h
      rcases mem_insertDescBySK h with h | h
      · exact List.mem_cons.mpr (Or.inl h)
      · exact List.mem_cons.mpr (Or.inr (ih h))

theorem itemOf_PK (p : EventPayload) (env : IngestEnv) :
    (itemOf p env).PK = "DEVICE#" ++ p.device_id := rfl

theorem itemOf_SK (p : EventPayload) (env : IngestEnv) :
    (itemOf p env).SK = "TS#" ++ toString p.ts := rfl

/-! ## C1 -/

/-- C1: submitting the same well-formed event twice under a fault-free store
and queue stores exactly one record for its `(device_id, ts)` pair: the first
`ingest_event` call answers 201 and appends the item, the second answers 409
and leaves the store unchanged, because the conditional put succeeds only
when no record exists for that key. -/
theorem c1_idempotent_insert (body : BodyVal) (env1 env2 : IngestEnv)
    (store : Store) (p : EventPayload)
    (hp : parseBody body = .ok p)
    (h1s : env1.storeFault = false) (h1p : env1.publishFault = false)
    (h2s : env2.storeFault = false)
    (hk : keyExists store ("DEVICE#" ++ p.device_id) ("TS#" ++ toString p.ts) = false) :
    statusOf (ingest_event body env1 store).outcome = some 201 ∧
    statusOf (ingest_event body env2 (ingest_event body env1 store).store).outcome = some 409 ∧
    (ingest_event body env2 (ingest_event body env1 store).store).store =
      (ingest_event body env1 store).store ∧
    countKey (ingest_event body env1 store).store
      ("DEVICE#" ++ p.device_id) ("TS#" ++ toString p.ts) = 1 := by
  have hstore1 : (ingest_event body env1 store).store = store ++ [itemOf p env1] := by
    simp [ingest_event, hp, ingestAfterParse, put_item, itemOf_PK, itemOf_SK, h1s, h1p, hk]
  have hk2 : keyExists (store ++ [itemOf p env1])
      ("DEVICE#" ++ p.device_id) ("TS#" ++ toString p.ts) = true := by
    rw [keyExists_append, hk]
    simp [keyExists, itemOf_PK, itemOf_SK]
  refine ⟨?_, ?_, ?_, ?_⟩
  · simp [ingest_event, hp, ingestAfterParse, put_item, itemOf_PK, itemOf_SK,
          h1s, h1p, hk, statusOf, handlerResponse]
  · rw [hstore1]
    simp [ingest_event, hp, ingestAfterParse, put_item, itemOf_PK, itemOf_SK,
          h2s, hk2, statusOf, handlerResponse]
  · rw [hstore1]
    simp [ingest_event, hp, ingestAfterParse, put_item, itemOf_PK, itemOf_SK, h2s, hk2]
  · rw [hstore1, countKey_append, countKey_eq_zero_of_not_keyExists store _ _ hk]
    simp [countKey, itemOf_PK, itemOf_SK]

/-- Witness for C1 at the concrete event `(d1, ts=9)` on the empty store. -/
theorem c1_idempotent_insert_witness :
    statusOf (ingest_event bodyW9 envW1 []).outcome = some 201 ∧
    statusOf (ingest_event bodyW9 envW2 (ingest_event bodyW9 envW1 []).store).outcome = some 409 ∧
    (ingest_event bodyW9 envW2 (ingest_event bodyW9 envW1 []).store).store =
      (ingest_event bodyW9 envW1 []).store ∧
    countKey (ingest_event bodyW9 envW1 []).store "DEVICE#d1" "TS#9" = 1 := by
  have h := c1_idempotent_insert bodyW9 envW1 envW2 [] payloadW9
    (by rfl) (by rfl) (by rfl) (by rfl) (by rfl)
  simpa using h

/-! ## C4 -/

/-- C4: in every execution of `ingest_event`, a queue publish is attempted
only when the conditional insert returned `Accepted` — and then the item is
already durably appended to the store — while a `Duplicate` or store-failure
outcome returns without any publish attempt. -/
theorem c4_write_then_publish (body : BodyVal) (env : IngestEnv) (store : Store) :
    ((ingest_event body env store).attempted ≠ [] →
      (ingest_event body env store).putOutcome = some .accepted ∧
      ∃ p, parseBody body = .ok p ∧
        (ingest_event body env store).store = store ++ [itemOf p env]) ∧
    ((ingest_event body env store).putOutcome = some .condCheckFailed ∨
     (ingest_event body env store).putOutcome = some .clientError →
      (ingest_event body env store).attempted = []) := by
  cases hp : parseBody body with
  | error e =>
      cases e <;> simp [ingest_event, hp]
  | ok p =>
      simp only [ingest_event, hp, ingestAfterParse, put_item]
      by_cases hf : env.storeFault
      · simp [hf]
      · simp only [hf, if_false, Bool.false_eq_true]
        by_cases hk : keyExists store (itemOf p env).PK (itemOf p env).SK
        · simp [hk]
        · by_cases hq : env.publishFault <;> simp [hk, hq]

/-! ## C2 -/

/-- C2 (counterexample to descending-`ts` ordering): with events at ts=9 and
ts=100 stored for `d1`, the unbounded query returns them as `[9, 100]` —
the string sort key `"TS#9"` exceeds `"TS#100"` lexicographically — which is
not strictly descending in the integer `ts`. -/
theorem c2_ordering_violated_at_ts9_ts100 :
    eventsTsList (get_device_events ⟨some "d1", none, none, none⟩ qenvW
      (ingest_event bodyW100 envW2 (ingest_event bodyW9 envW1 []).store).store).outcome
      = [9, 100] ∧
    strictlyDescending [9, 100] = false := ⟨rfl, rfl⟩

/-! ## C3 -/

/-- C3 (counterexample to range correctness): with a single event at ts=100
stored for `d1`, the query `from_ts=1&to_ts=5` returns that event —
`"TS#1" ≤ "TS#100" ≤ "TS#5"` as strings — although `1 ≤ 100 ≤ 5` is false,
so the result is not the set of events with `from_ts ≤ ts ≤ to_ts`. -/
theorem c3_range_violated_at_ts100 :
    eventsTsList (get_device_events ⟨some "d1", some "1", some "5", none⟩ qenvW
      (ingest_event bodyW100 envW1 []).store).outcome = [100] ∧
    ¬ ((1 : Int) ≤ 100 ∧ (100 : Int) ≤ 5) := ⟨rfl, by decide⟩

/-! ## C5 -/

/-- C5 (counter-evidence to total error handling): an ingest request without
a string body raises the `ValueError` of `_parse_body`, which neither
`except json.JSONDecodeError` nor `except ValidationError` catches, and a
`GET` request with the non-integer `limit` value `"abc"` raises the
`ValueError` of the bare `int(...)` call; both escape the handler instead of
becoming structured responses. -/
theorem c5_uncaught_exceptions :
    (ingest_event .missing envW1 []).outcome =
      .error (.valueError "Message Body is required") ∧
    (get_device_events ⟨some "d1", none, none, some "abc"⟩ qenvW []).outcome =
      .error (.valueError "invalid literal for int() with base 10") := ⟨rfl, rfl⟩

/-! ## C6 -/

/-- C6 (counterexample): the non-positive bound `from_ts = "-5"` is not
rejected: the request succeeds with 200 and the raw string is used in the
store query's key condition. -/
theorem c6_nonpositive_from_ts_not_rejected :
    statusOf (get_device_events ⟨some "d1", some "-5", none, none⟩ qenvW []).outcome
      = some 200 ∧
    (get_device_events ⟨some "d1", some "-5", none, none⟩ qenvW []).usedQuery =
      some ("DEVICE#d1", .gte "TS#-5", 100) := ⟨rfl, rfl⟩

/-- C6 (amended): `from_ts`, `to_ts` and `limit` are optional, but none is
validated as a positive integer: present `from_ts`/`to_ts` values of any
shape are interpolated verbatim into the key condition, and a present
`limit` is parsed by `int(...)` — an uncaught `ValueError` when unparseable —
and passed to the store query without a positivity check. -/
theorem c6_optional_params_not_validated (store : Store) (env : GetEnv)
    (d fromS toS limS : String) (n : Int)
    (hdev : (pyStrip d == "") = false)
    (hf : (fromS == "") = false) (ht : (toS == "") = false) :
    (get_device_events ⟨some d, some fromS, some toS, none⟩ env store).usedQuery =
      some ("DEVICE#" ++ pyStrip d, .between ("TS#" ++ fromS) ("TS#" ++ toS), 100) ∧
    (pyInt limS = some n →
      (get_device_events ⟨some d, none, none, some limS⟩ env store).usedQuery =
        some ("DEVICE#" ++ pyStrip d, .noCond, n)) ∧
    (pyInt limS = none →
      (get_device_events ⟨some d, none, none, some limS⟩ env store).outcome =
        .error (.valueError "invalid literal for int() with base 10")) := by
  refine ⟨?_, ?_, ?_⟩
  · simp only [get_device_events, Option.getD, hdev, Bool.false_eq_true, if_false,
               optStrTruthy, hf, ht, Bool.not_false, Bool.and_self, if_true]
    split <;> rfl
  · intro hn
    simp only [get_device_events, Option.getD, hdev, Bool.false_eq_true, if_false,
               hn, optStrTruthy, Bool.not_false, Bool.and_false, if_false]
    split <;> rfl
  · intro hn
    simp only [get_device_events, Option.getD, hdev, Bool.false_eq_true, if_false, hn]

/-- Witness for C6 (amended): `from_ts="-5"`, `to_ts="0"` pass into the key
condition verbatim, and the non-positive `limit="-7"` reaches the store
query. -/
theorem c6_optional_params_not_validated_witness :
    (get_device_events ⟨some "d1", some "-5", some "0", none⟩ qenvW []).usedQuery =
      some ("DEVICE#d1", .between "TS#-5" "TS#0", 100) ∧
    (get_device_events ⟨some "d1", none, none, some "-7"⟩ qenvW []).usedQuery =
      some ("DEVICE#d1", .noCond, -7) := by
  have h := c6_optional_params_not_validated [] qenvW "d1" "-5" "0" "-7" (-7)
    (by rfl) (by rfl) (by rfl)
  exact ⟨h.1, h.2.1 (by rfl)⟩

/-! ## C7 -/

/-- C7 (counter-evidence): when the store insert succeeds and the queue
publish fails, the 500 response's body carries no `request_id`
(`_response` is called without the `request_id` argument at that call site),
although the environment's request id `"req-7"` is non-empty. -/
theorem c7_publish_failure_response_lacks_request_id :
    statusOf (ingest_event bodyW9 envWPubFail []).outcome = some 500 ∧
    bodyGet (ingest_event bodyW9 envWPubFail []).outcome "request_id" = none ∧
    envWPubFail.request_id = "req-7" := ⟨rfl, rfl, rfl⟩

/-! ## C8 -/

/-- The `detail` field of a 400 response built from an `{"error":…,
"detail":…}` body is untouched by the `request_id` insertion. -/
theorem bodyGet_detail_response (status : Nat) (E D : JVal) (rid : Option String) :
    getKey (handlerResponse status (.obj [("error", E), ("detail", D)]) rid).body
      "detail" = some D := by
  unfold handlerResponse
  by_cases h : optStrTruthy rid <;> simp [h, setKey, getKey, List.find?]

/-- C8: whenever `device_id` and `ts` both violate their field rules, the
single 400 response's `detail` is the aggregated error list and it contains
both field errors, not only the first one. -/
theorem c8_aggregated_validation_errors (fields : List (String × JVal))
    (env : IngestEnv) (store : Store) (e1 e2 : FieldError)
    (h1 : parseDeviceId fields = .error e1) (h2 : parseTs fields = .error e2) :
    statusOf (ingest_event (.json (.obj fields)) env store).outcome = some 400 ∧
    ∃ es, validateEventPayload fields = .error es ∧ e1 ∈ es ∧ e2 ∈ es ∧
      bodyGet (ingest_event (.json (.obj fields)) env store).outcome "detail" =
        some (.arr (es.map (fun e =>
          .obj [("loc", .arr [.str e.loc]), ("msg", .str e.msg)]))) := by
  have hval : validateEventPayload fields =
      .error ([e1] ++ collectErr (parseType fields) ++ collectErr (parseValue fields) ++
              [e2] ++ collectErr (parseRaw fields)) := by
    cases ht : parseType fields <;> cases hv : parseValue fields <;>
      cases hr : parseRaw fields <;>
        simp [validateEventPayload, h1, h2, ht, hv, hr, collectErr]
  have hparse : parseBody (.json (.obj fields)) =
      .error (.validationError
        ([e1] ++ collectErr (parseType fields) ++ collectErr (parseValue fields) ++
         [e2] ++ collectErr (parseRaw fields))) := by
    simp [parseBody, hval]
  refine ⟨?_, ?_⟩
  · simp [ingest_event, hparse, statusOf, handlerResponse]
  · refine ⟨_, hval, ?_, ?_, ?_⟩
    · simp
    · simp
    · simp only [ingest_event, hparse, bodyGet]
      exact bodyGet_detail_response 400 _ _ _

/-- Witness for C8: the request missing `device_id` and carrying `ts = -1`
yields one 400 response. -/
theorem c8_aggregated_validation_errors_witness :
    statusOf (ingest_event (.json (.obj fieldsW8)) envW1 []).outcome = some 400 :=
  (c8_aggregated_validation_errors fieldsW8 envW1 [] ⟨"device_id", "Field required"⟩
    ⟨"ts", "ts must be a positive epoch millisecond value"⟩ (by rfl) (by rfl)).1

/-! ## C9 -/

/-- Inversion of a successful body parse down to the pydantic validation. -/
theorem parseBody_ok_validate (fields : List (String × JVal)) (p : EventPayload)
    (h : parseBody (.json (.obj fields)) = .ok p) :
    validateEventPayload fields = .ok p := by
  simp only [parseBody] at h
  split at h
  · rename_i q hq
    cases h
    exact hq
  · simp at h

/-- A successful validation returns exactly the parsed `raw` field. -/
theorem validateEventPayload_ok_raw (fields : List (String × JVal))
    (p : EventPayload) (h : validateEventPayload fields = .ok p) :
    parseRaw fields = .ok p.raw := by
  unfold validateEventPayload at h
  split at h
  · next hd ht hv hts hr => cases h; exact hr
  · cases h

/-- C9 (counterexample): an accepted event whose input carries the *empty*
`raw` object is stored without any `raw` attribute (`if payload.raw:` is
false on an empty dict), although the input contained the field. -/
theorem c9_empty_raw_dropped :
    statusOf (ingest_event bodyWEmptyRaw envW1 []).outcome = some 201 ∧
    (ingest_event bodyWEmptyRaw envW1 []).store.map Item.raw = [none] := ⟨rfl, rfl⟩

/-- C9 (amended): for every accepted event, a present *non-empty* `raw`
object is stored unchanged; when `raw` is absent — and likewise when it is
the empty object — the stored record has no `raw` attribute. -/
theorem c9_raw_passthrough (fields : List (String × JVal))
    (env : IngestEnv) (store : Store) (p : EventPayload)
    (hp : parseBody (.json (.obj fields)) = .ok p)
    (hf : env.storeFault = false)
    (hk : keyExists store ("DEVICE#" ++ p.device_id) ("TS#" ++ toString p.ts) = false) :
    (ingest_event (.json (.obj fields)) env store).store = store ++ [itemOf p env] ∧
    (∀ l, getKey fields "raw" = some (.obj l) → l ≠ [] →
      (itemOf p env).raw = some l) ∧
    (getKey fields "raw" = none → (itemOf p env).raw = none) ∧
    (getKey fields "raw" = some (.obj []) → (itemOf p env).raw = none) := by
  have hraw : parseRaw fields = .ok p.raw :=
    validateEventPayload_ok_raw fields p (parseBody_ok_validate fields p hp)
  refine ⟨?_, ?_, ?_, ?_⟩
  · by_cases hq : env.publishFault <;>
      simp [ingest_event, hp, ingestAfterParse, put_item, itemOf_PK, itemOf_SK,
            hf, hk, hq]
  · intro l hl hne
    have hr : p.raw = some l := by
      simp only [parseRaw, hl, Except.ok.injEq] at hraw
      exact hraw.symm
    cases l with
    | nil => exact absurd rfl hne
    | cons a as => simp [itemOf, hr]
  · intro hl
    have hr : p.raw = none := by
      simp only [parseRaw, hl, Except.ok.injEq] at hraw
      exact hraw.symm
    simp [itemOf, hr]
  · intro hl
    have hr : p.raw = some [] := by
      simp only [parseRaw, hl, Except.ok.injEq] at hraw
      exact hraw.symm
    simp [itemOf, hr]

/-- Witness for C9 (amended): the non-empty `raw` object `{"k": 1}` is
stored unchanged. -/
theorem c9_raw_passthrough_witness :
    (ingest_event (.json (.obj fieldsWRaw)) envW1 []).store =
      [itemOf payloadWRaw envW1] ∧
    (itemOf payloadWRaw envW1).raw = some [("k", JVal.int 1)] := by
  have h := c9_raw_passthrough fieldsWRaw envW1 [] payloadWRaw
    (by rfl) (by rfl) (by rfl)
  exact ⟨h.1, h.2.1 [("k", JVal.int 1)] (by rfl) (by simp)⟩

/-! ## C10 -/

/-- C10 (counterexample): querying with the path parameter `" d1"` — a
device id distinct from `"d1"` — returns the event that was ingested for
device `"d1"`, because `get_device_events` strips the path parameter while
`ingest_event` stores the id unstripped. -/
theorem c10_query_strips_device_id :
    eventsDeviceIds (get_device_events ⟨some " d1", none, none, none⟩ qenvW
      (ingest_event bodyW9 envW1 []).store).outcome = ["d1"] ∧
    (" d1" : String) ≠ "d1" := ⟨rfl, by decide⟩

/-- C10 (amended): the partition-key encoding `device_id ↦ "DEVICE#" +
device_id` is injective; every ingest preserves the partition-key shape of
the store; and on such a store `get_device_events` only ever returns items
whose `device_id` equals the *whitespace-stripped* path parameter — so
records of distinct device ids never share a partition and a query never
crosses into another device's partition, up to the handler's stripping of
the path parameter. -/
theorem c10_partition_isolation :
    (∀ a b : String, "DEVICE#" ++ a = "DEVICE#" ++ b → a = b) ∧
    (∀ body env store, WFStore store → WFStore (ingest_event body env store).store) ∧
    (∀ req env store, WFStore store →
      ∀ i ∈ (get_device_events req env store).returnedItems,
        i.device_id = pyStrip (req.device_id.getD "")) := by
  have hinj : ∀ a b : String, "DEVICE#" ++ a = "DEVICE#" ++ b → a = b := by
    intro a b h
    have h2 : "DEVICE#".data ++ a.data = "DEVICE#".data ++ b.data :=
      congrArg String.data h
    exact String.ext_iff.mpr (List.append_cancel_left h2)
  refine ⟨hinj, ?_, ?_⟩
  · intro body env store hwf
    cases hp : parseBody body with
    | error e =>
        cases e <;> simpa [ingest_event, hp] using hwf
    | ok p =>
        simp only [ingest_event, hp, ingestAfterParse, put_item]
        by_cases hf : env.storeFault
        · simpa [hf] using hwf
        · simp only [hf, Bool.false_eq_true, if_false]
          by_cases hk : keyExists store (itemOf p env).PK (itemOf p env).SK
          · simpa [hk] using hwf
          · have hnew : WFStore (store ++ [itemOf p env]) := by
              intro i hi
              rcases List.mem_append.mp hi with h | h
              · exact hwf i h
              · rw [List.mem_singleton.mp h]; rfl
            by_cases hq : env.publishFault <;> simpa [hk, hq] using hnew
  · intro req env store hwf i hi
    simp only [get_device_events] at hi
    split at hi
    · simp at hi
    · split at hi
      · simp at hi
      · split at hi
        · simp at hi
        · rename_i items lek htq
          replace hi : i ∈ items := hi
          simp only [tableQuery] at htq
          split at htq
          · cases htq
          · cases htq
            have h1 := mem_sortDescBySK (List.take_subset _ _ hi)
            have h2 := List.mem_filter.mp h1
            have hpk : i.PK = "DEVICE#" ++ pyStrip (req.device_id.getD "") := by
              have h3 := h2.2
              simp only [Bool.and_eq_true, beq_iff_eq] at h3
              exact h3.1
            exact hinj _ _ ((hwf i h2.1).symm.trans hpk)

/-- Witness for C10 (amended): the item returned for the query `" d1"` has
the stripped device id `"d1"`. -/
theorem c10_partition_isolation_witness : itemW10.device_id = "d1" := by
  have hwf : WFStore storeW10 := by
    intro i hi
    rw [show storeW10 = [itemW10] from rfl] at hi
    rw [List.mem_singleton.mp hi]
    rfl
  have hmem : itemW10 ∈ (get_device_events ⟨some " d1", none, none, none⟩ qenvW
      storeW10).returnedItems := by
    rw [show (get_device_events ⟨some " d1", none, none, none⟩ qenvW
      storeW10).returnedItems = [itemW10] from rfl]
    exact List.mem_singleton.mpr rfl
  exact c10_partition_isolation.2.2 ⟨some " d1", none, none, none⟩ qenvW
    storeW10 hwf itemW10 hmem

/-- Witness for C4: on a store already holding `(d1, ts=9)`, resubmitting
that event hits the duplicate outcome and no publish is attempted. -/
theorem c4_write_then_publish_witness :
    (ingest_event bodyW9 envW2 storeW10).attempted = [] :=
  (c4_write_then_publish bodyW9 envW2 storeW10).2
    (Or.inl (show (ingest_event bodyW9 envW2 storeW10).putOutcome =
      some PutOutcome.condCheckFailed from rfl))
